import Mathlib

/-!
Verification of the output-statistics extractor and scan wrapper of
`src/portfolio_scanner.py` (class `PortfolioNetworkScanner`).

The Python code is shallowly embedded: each Python string primitive used by
the code is modelled by an executable Lean function over `String` (viewed as
its list of characters), `str.lower` is modelled as ASCII case folding, and
the line loop of `_parse_statistics` becomes an explicit fold over the list
of lines with a small state record.
-/

/-! ## Python string primitives -/

/-- One-step membership test: `containsSub p s` is true when the character
list `p` occurs contiguously inside `s` (Python `p in s` for strings). -/
def containsSub (p : List Char) : List Char → Bool
  | [] => p.isEmpty
  | c :: rest => p.isPrefixOf (c :: rest) || containsSub p rest

/-- `strContains hay needle` models Python `needle in hay`. -/
def strContains (hay needle : String) : Bool :=
  containsSub needle.data hay.data

/-- Python `str.lower`, restricted to ASCII case folding (the letters that
occur in any keyword the scanner matches are all ASCII). -/
def pyLower (s : String) : String :=
  ⟨s.data.map Char.toLower⟩

/-- The characters Python `str.strip`/`str.split` treat as whitespace. -/
def isPySpace (c : Char) : Bool :=
  c == ' ' || c == '\t' || c == '\n' || c == '\x0b' || c == '\x0c' || c == '\r'

/-- Python `str.strip()`: drop leading and trailing whitespace. -/
def pyStrip (s : String) : String :=
  ⟨((s.data.dropWhile isPySpace).reverse.dropWhile isPySpace).reverse⟩

/-- Helper for `pySplitChar`: accumulate the current field (reversed). -/
def pySplitCharAux (sep : Char) : List Char → List Char → List String
  | [], acc => [⟨acc.reverse⟩]
  | c :: rest, acc =>
    if c == sep then (⟨acc.reverse⟩ : String) :: pySplitCharAux sep rest []
    else pySplitCharAux sep rest (c :: acc)

/-- Python `s.split(sep)` for a one-character separator: keeps empty fields,
always returns at least one element. -/
def pySplitChar (s : String) (sep : Char) : List String :=
  pySplitCharAux sep s.data []

/-- Python `output.split('\n')`. -/
def pyLines (s : String) : List String :=
  pySplitChar s '\n'

/-- Helper for `pySplit`: whitespace-separated fields, dropping empties. -/
def pySplitAux : List Char → List Char → List String
  | [], acc => if acc.isEmpty then [] else [⟨acc.reverse⟩]
  | c :: rest, acc =>
    if isPySpace c then
      if acc.isEmpty then pySplitAux rest []
      else (⟨acc.reverse⟩ : String) :: pySplitAux rest []
    else pySplitAux rest (c :: acc)

/-- Python `s.split()` with no argument: split on runs of whitespace and
discard empty fields. -/
def pySplit (s : String) : List String :=
  pySplitAux s.data []

/-- Python `s.startswith(pre)`. -/
def pyStartsWith (s pre : String) : Bool :=
  pre.data.isPrefixOf s.data

/-- Fuel-driven worker for `pyReplace` (fuel bounds the number of characters
consumed, keeping the recursion structural). -/
def pyReplaceAux (pat repl : List Char) : Nat → List Char → List Char
  | _, [] => []
  | 0, rest => rest
  | fuel + 1, c :: rest =>
    if !pat.isEmpty && pat.isPrefixOf (c :: rest) then
      repl ++ pyReplaceAux pat repl fuel ((c :: rest).drop pat.length)
    else c :: pyReplaceAux pat repl fuel rest

/-- Python `s.replace(pat, repl)` for a non-empty pattern: replace every
(left-to-right, non-overlapping) occurrence. -/
def pyReplace (s pat repl : String) : String :=
  ⟨pyReplaceAux pat.data repl.data s.data.length s.data⟩

/-- Python `list.index(x)`: position of the first element equal to `x`
(total: returns the length when `x` is absent, a case the scanner never
hits because it only looks up elements of the list itself). -/
def pyIndexOf : List String → String → Nat
  | [], _ => 0
  | l :: rest, x => if l = x then 0 else pyIndexOf rest x + 1

/-! ## Bridge lemmas for the substring test -/

theorem containsSub_iff (p : List Char) :
    ∀ s : List Char, containsSub p s = true ↔ p <:+: s := by
  intro s
  induction s with
  | nil => simp [containsSub, List.isEmpty_iff, List.infix_nil]
  | cons c rest ih =>
    simp [containsSub, Bool.or_eq_true, List.isPrefixOf_iff_prefix, ih,
      List.infix_cons_iff]

theorem strContains_iff (hay needle : String) :
    strContains hay needle = true ↔ needle.data <:+: hay.data := by
  exact containsSub_iff needle.data hay.data

/-- If `a` contains `b` and `b` contains `c` (as substrings), then `a`
contains `c`. -/
theorem strContains_trans {a b c : String}
    (h1 : strContains a b = true) (h2 : strContains b c = true) :
    strContains a c = true := by
  rw [strContains_iff] at h1 h2 ⊢
  exact h2.trans h1

/-- `pyIndexOf` returns the position itself on a duplicate-free list. -/
theorem pyIndexOf_getElem :
    ∀ (lines : List String), lines.Nodup →
      ∀ (i : Nat) (hi : i < lines.length), pyIndexOf lines lines[i] = i := by
  intro lines
  induction lines with
  | nil => intro _ i hi; exact absurd hi (Nat.not_lt_zero i)
  | cons a rest ih =>
    intro hnd i hi
    cases i with
    | zero => simp [pyIndexOf]
    | succ n =>
      have hrest : n < rest.length := Nat.lt_of_succ_lt_succ hi
      have hmem : (a :: rest)[n + 1] ∈ rest := by
        rw [List.getElem_cons_succ]
        exact List.getElem_mem hrest
      have hne : a ≠ (a :: rest)[n + 1] := by
        intro he
        exact (List.nodup_cons.mp hnd).1 (he ▸ hmem)
      simp only [pyIndexOf, if_neg hne]
      rw [List.getElem_cons_succ]
      rw [List.getElem_cons_succ] at hne
      have := ih (List.nodup_cons.mp hnd).2 n hrest
      omega

/-! ## Data model of `_parse_statistics` -/

/-- One entry of the `open_ports` list (the Python dict built at
`portfolio_scanner.py:208`); the `version` key is only present when the
lookahead sets it, hence `Option`. -/
structure PortInfo where
  port : String
  protocol : String
  state : String
  service : String
  version : Option String
deriving Repr, DecidableEq

/-- The `stats` dict of `_parse_statistics`. -/
structure Stats where
  hosts_up : Nat
  open_ports : List PortInfo
  services : List String
  scan_status : String
  vulnerabilities : List String
deriving Repr, DecidableEq

/-- The mutable locals of the parsing loop: `stats`, `current_host`,
`in_port_section`. -/
structure LoopState where
  stats : Stats
  current_host : Option String
  in_port_section : Bool
deriving Repr, DecidableEq

/-- The initial `stats` dict (`portfolio_scanner.py:160`). -/
def initStats : Stats :=
  { hosts_up := 0, open_ports := [], services := [], scan_status := "unknown",
    vulnerabilities := [] }

/-- Loop state before the first line is processed. -/
def initLoopState : LoopState :=
  { stats := initStats, current_host := none, in_port_section := false }

/-! ## The line loop, step by step -/

/-- Step 1 of the loop (`portfolio_scanner.py:183`-`192`): host status.
Python operator precedence makes the second guard
`("host is up" in line_lower) or ("up" in line_lower and "host" in line_lower)`. -/
def hostStatusStep (st : LoopState) (line : String) : LoopState :=
  if strContains (pyLower line) "nmap scan report for" then
    { st with
      stats := { st.stats with hosts_up := 1, scan_status := "host_found" },
      current_host := some (pyStrip (pyReplace line "Nmap scan report for" "")) }
  else if strContains (pyLower line) "host is up" ||
      (strContains (pyLower line) "up" && strContains (pyLower line) "host") then
    { st with stats := { st.stats with hosts_up := 1, scan_status := "host_up" } }
  else if strContains (pyLower line) "0 hosts up" ||
      strContains (pyLower line) "host seems down" then
    { st with stats := { st.stats with hosts_up := 0, scan_status := "host_down" } }
  else st

/-- The port-table header test of step 2 (`portfolio_scanner.py:195`). -/
def isPortTableHeader (line : String) : Bool :=
  strContains (pyLower line) "port" && strContains (pyLower line) "state" &&
    strContains (pyLower line) "service"

/-- The keyword filter of the service lookahead (`portfolio_scanner.py:220`). -/
def mentionsTableWord (s : String) : Bool :=
  strContains (pyLower s) "nmap" || strContains (pyLower s) "port" ||
    strContains (pyLower s) "service" || strContains (pyLower s) "state"

/-- One iteration of the lookahead loop (`portfolio_scanner.py:217`-`224`);
the Python dict always has a `"service"` key, so the test
`"service" not in port_info or port_info["service"] == "unknown"` reduces to
the equality. -/
def lookaheadStep (lines : List String) (idx : Nat) (i : Nat)
    (info : PortInfo) : PortInfo :=
  if idx + i < lines.length then
    let next_line := pyStrip (lines.getD (idx + i) "")
    if next_line != "" && !mentionsTableWord next_line then
      if info.service == "unknown" then { info with service := next_line }
      else if strContains (pyLower next_line) "version" ||
          strContains (pyLower next_line) "product" then
        { info with version := some next_line }
      else info
    else info
  else info

/-- The `for i in range(1, 4)` lookahead, threading `port_info`. -/
def lookahead (lines : List String) (idx : Nat) (info : PortInfo) : PortInfo :=
  lookaheadStep lines idx 3 (lookaheadStep lines idx 2 (lookaheadStep lines idx 1 info))

/-- The `port_info` dict as first built (`portfolio_scanner.py:208`-`213`). -/
def mkPortInfo (port_protocol state : String) (parts : List String) : PortInfo :=
  { port := (pySplitChar port_protocol '/').getD 0 ""
    protocol :=
      if port_protocol.data.contains '/' then (pySplitChar port_protocol '/').getD 1 ""
      else "tcp"
    state := state
    service := if parts.length > 2 then parts.getD 2 "" else "unknown"
    version := none }

/-- Step 3 of the loop (`portfolio_scanner.py:200`-`226`), with the start
index of the lookahead abstracted as `idx`; the source computes it as
`lines.index(line)`, which `processLine` passes in. -/
def portLineStepAt (lines : List String) (idx : Nat) (st : LoopState)
    (line : String) : LoopState :=
  if st.in_port_section && pyStrip line != "" && !pyStartsWith line "Nmap" &&
      !pyStartsWith line "|" then
    if decide ((pySplit line).length ≥ 2) &&
        (strContains (pyLower ((pySplit line).getD 0 "")) "/tcp" ||
         strContains (pyLower ((pySplit line).getD 0 "")) "/udp") then
      if pyLower ((pySplit line).getD 1 "") == "open" then
        { st with stats := { st.stats with
            open_ports := st.stats.open_ports ++
              [lookahead lines idx
                (mkPortInfo ((pySplit line).getD 0 "") ((pySplit line).getD 1 "")
                  (pySplit line))] } }
      else st
    else st
  else st

/-- Step 4 of the loop (`portfolio_scanner.py:229`): end of port section. -/
def sectionEndStep (st : LoopState) (line : String) : LoopState :=
  if st.in_port_section && (pyStartsWith line "Nmap" ||
      strContains (pyLower line) "read data files" || pyStrip line == "") then
    { st with in_port_section := false }
  else st

/-- The vulnerability keyword test of step 5 (`portfolio_scanner.py:233`). -/
def hasVulnKeyword (line : String) : Bool :=
  strContains (pyLower line) "vuln" || strContains (pyLower line) "cve-" ||
    strContains (pyLower line) "vulnerability" || strContains (pyLower line) "risk" ||
    strContains (pyLower line) "exploit"

/-- Step 5 of the loop (`portfolio_scanner.py:233`-`235`): capture the
stripped line. -/
def vulnStep (st : LoopState) (line : String) : LoopState :=
  if hasVulnKeyword line then
    if pyStrip line != "" then
      { st with
        stats := { st.stats with
          vulnerabilities := st.stats.vulnerabilities ++ [pyStrip line] } }
    else st
  else st

/-- One full iteration of `for line in lines`, with the lookahead start
index abstracted as `idx`. The `continue` at `portfolio_scanner.py:197`
makes steps 3-5 run only when the header test fails. -/
def processLineAt (lines : List String) (idx : Nat) (st : LoopState)
    (line : String) : LoopState :=
  if isPortTableHeader line then
    { hostStatusStep st line with in_port_section := true }
  else
    vulnStep (sectionEndStep (portLineStepAt lines idx (hostStatusStep st line) line) line) line

/-- One full iteration of the source loop: the lookahead starts from
`lines.index(line)`, the position of the FIRST occurrence of the text of
`line` (`portfolio_scanner.py:216`). -/
def processLine (lines : List String) (st : LoopState) (line : String) : LoopState :=
  processLineAt lines (pyIndexOf lines line) st line

/-- The `for line in lines` loop. -/
def parseLoop (lines : List String) (st : LoopState) : List String → LoopState
  | [] => st
  | l :: rest => parseLoop lines (processLine lines st l) rest

/-- Step 6 after the loop (`portfolio_scanner.py:238`): if ports were found
but no host was detected, assume the host is up. -/
def impliedHostFallback (s : Stats) : Stats :=
  if s.hosts_up == 0 && !s.open_ports.isEmpty then
    { s with hosts_up := 1, scan_status := "implied_host_up" }
  else s

/-- Step 7 after the loop (`portfolio_scanner.py:243`): status fallback from
the whole output text. -/
def statusFallback (output : String) (s : Stats) : Stats :=
  if s.scan_status == "unknown" then
    if strContains (pyLower output) "scan report" then
      { s with scan_status := "completed" }
    else if strContains (pyLower output) "nmap done" then
      { s with scan_status := "completed_no_hosts" }
    else s
  else s

/-- Steps 6 and 7 combined. -/
def finalizeStats (output : String) (s : Stats) : Stats :=
  statusFallback output (impliedHostFallback s)

/-- `_parse_statistics` (`portfolio_scanner.py:158`-`249`). -/
def parse_statistics (output : String) : Stats :=
  if output == "" then { initStats with scan_status := "no_output" }
  else finalizeStats output (parseLoop (pyLines output) initLoopState (pyLines output)).stats

/-! ## Preservation lemmas for the loop steps -/

theorem hostStatusStep_open_ports (st : LoopState) (line : String) :
    (hostStatusStep st line).stats.open_ports = st.stats.open_ports := by
  unfold hostStatusStep; split_ifs <;> rfl

theorem hostStatusStep_services (st : LoopState) (line : String) :
    (hostStatusStep st line).stats.services = st.stats.services := by
  unfold hostStatusStep; split_ifs <;> rfl

theorem hostStatusStep_vulns (st : LoopState) (line : String) :
    (hostStatusStep st line).stats.vulnerabilities = st.stats.vulnerabilities := by
  unfold hostStatusStep; split_ifs <;> rfl

theorem hostStatusStep_hosts (st : LoopState) (line : String) :
    (hostStatusStep st line).stats.hosts_up = 0 ∨
      (hostStatusStep st line).stats.hosts_up = 1 ∨
      (hostStatusStep st line).stats.hosts_up = st.stats.hosts_up := by
  unfold hostStatusStep; split_ifs <;> simp

theorem portLineStepAt_stats_eq (lines : List String) (idx : Nat)
    (st : LoopState) (line : String) :
    (portLineStepAt lines idx st line).stats.hosts_up = st.stats.hosts_up ∧
      (portLineStepAt lines idx st line).stats.services = st.stats.services ∧
      (portLineStepAt lines idx st line).stats.scan_status = st.stats.scan_status ∧
      (portLineStepAt lines idx st line).stats.vulnerabilities = st.stats.vulnerabilities := by
  unfold portLineStepAt; split_ifs <;> exact ⟨rfl, rfl, rfl, rfl⟩

theorem sectionEndStep_stats (st : LoopState) (line : String) :
    (sectionEndStep st line).stats = st.stats := by
  unfold sectionEndStep; split_ifs <;> rfl

theorem vulnStep_cases (st : LoopState) (line : String) :
    vulnStep st line = st ∨
      vulnStep st line =
        { st with stats := { st.stats with
            vulnerabilities := st.stats.vulnerabilities ++ [pyStrip line] } } := by
  unfold vulnStep
  split_ifs
  · exact Or.inr rfl
  · exact Or.inl rfl
  · exact Or.inl rfl

theorem vulnStep_hosts (st : LoopState) (line : String) :
    (vulnStep st line).stats.hosts_up = st.stats.hosts_up := by
  rcases vulnStep_cases st line with h | h <;> rw [h]

theorem vulnStep_status (st : LoopState) (line : String) :
    (vulnStep st line).stats.scan_status = st.stats.scan_status := by
  rcases vulnStep_cases st line with h | h <;> rw [h]

theorem vulnStep_services (st : LoopState) (line : String) :
    (vulnStep st line).stats.services = st.stats.services := by
  rcases vulnStep_cases st line with h | h <;> rw [h]

theorem vulnStep_open_ports (st : LoopState) (line : String) :
    (vulnStep st line).stats.open_ports = st.stats.open_ports := by
  rcases vulnStep_cases st line with h | h <;> rw [h]

theorem vulnStep_mem (st : LoopState) (line : String) {v : String}
    (h : v ∈ st.stats.vulnerabilities) :
    v ∈ (vulnStep st line).stats.vulnerabilities := by
  rcases vulnStep_cases st line with hc | hc <;> rw [hc]
  · exact h
  · exact List.mem_append_left _ h

/-! ## Preservation lemmas for a whole iteration -/

theorem processLineAt_services (lines : List String) (idx : Nat)
    (st : LoopState) (line : String) :
    (processLineAt lines idx st line).stats.services = st.stats.services := by
  unfold processLineAt
  split_ifs
  · exact hostStatusStep_services st line
  · rw [vulnStep_services, sectionEndStep_stats,
      (portLineStepAt_stats_eq lines idx (hostStatusStep st line) line).2.1,
      hostStatusStep_services]

theorem processLineAt_hosts (lines : List String) (idx : Nat)
    (st : LoopState) (line : String) :
    (processLineAt lines idx st line).stats.hosts_up = 0 ∨
      (processLineAt lines idx st line).stats.hosts_up = 1 ∨
      (processLineAt lines idx st line).stats.hosts_up = st.stats.hosts_up := by
  unfold processLineAt
  split_ifs
  · exact hostStatusStep_hosts st line
  · rw [vulnStep_hosts, sectionEndStep_stats,
      (portLineStepAt_stats_eq lines idx (hostStatusStep st line) line).1]
    exact hostStatusStep_hosts st line

theorem processLineAt_vulns_mem (lines : List String) (idx : Nat)
    (st : LoopState) (line : String) {v : String}
    (h : v ∈ st.stats.vulnerabilities) :
    v ∈ (processLineAt lines idx st line).stats.vulnerabilities := by
  unfold processLineAt
  split_ifs
  · rw [show ({ hostStatusStep st line with in_port_section := true } : LoopState).stats
        = (hostStatusStep st line).stats from rfl, hostStatusStep_vulns]
    exact h
  · apply vulnStep_mem
    rw [sectionEndStep_stats,
      (portLineStepAt_stats_eq lines idx (hostStatusStep st line) line).2.2.2,
      hostStatusStep_vulns]
    exact h

/-! ## Preservation lemmas for the loop and the fallback steps -/

theorem parseLoop_services (lines : List String) :
    ∀ (rest : List String) (st : LoopState),
      (parseLoop lines st rest).stats.services = st.stats.services := by
  intro rest
  induction rest with
  | nil => intro st; rfl
  | cons l rest ih =>
    intro st
    show (parseLoop lines (processLine lines st l) rest).stats.services = _
    rw [ih, processLine, processLineAt_services]

theorem parseLoop_hosts (lines : List String) :
    ∀ (rest : List String) (st : LoopState),
      st.stats.hosts_up = 0 ∨ st.stats.hosts_up = 1 →
      (parseLoop lines st rest).stats.hosts_up = 0 ∨
        (parseLoop lines st rest).stats.hosts_up = 1 := by
  intro rest
  induction rest with
  | nil => intro st h; exact h
  | cons l rest ih =>
    intro st h
    show (parseLoop lines (processLine lines st l) rest).stats.hosts_up = 0 ∨ _
    apply ih
    rcases processLineAt_hosts lines (pyIndexOf lines l) st l with h' | h' | h'
    · exact Or.inl h'
    · exact Or.inr h'
    · rw [processLine, h']; exact h

theorem parseLoop_vulns_mem (lines : List String) :
    ∀ (rest : List String) (st : LoopState) {v : String},
      v ∈ st.stats.vulnerabilities →
      v ∈ (parseLoop lines st rest).stats.vulnerabilities := by
  intro rest
  induction rest with
  | nil => intro st v h; exact h
  | cons l rest ih =>
    intro st v h
    exact ih _ (processLineAt_vulns_mem lines (pyIndexOf lines l) st l h)

theorem impliedHostFallback_services (s : Stats) :
    (impliedHostFallback s).services = s.services := by
  unfold impliedHostFallback; split_ifs <;> rfl

theorem impliedHostFallback_vulns (s : Stats) :
    (impliedHostFallback s).vulnerabilities = s.vulnerabilities := by
  unfold impliedHostFallback; split_ifs <;> rfl

theorem impliedHostFallback_hosts (s : Stats) :
    (impliedHostFallback s).hosts_up = 1 ∨
      (impliedHostFallback s).hosts_up = s.hosts_up := by
  unfold impliedHostFallback; split_ifs <;> simp

theorem statusFallback_services (output : String) (s : Stats) :
    (statusFallback output s).services = s.services := by
  unfold statusFallback; split_ifs <;> rfl

theorem statusFallback_vulns (output : String) (s : Stats) :
    (statusFallback output s).vulnerabilities = s.vulnerabilities := by
  unfold statusFallback; split_ifs <;> rfl

theorem statusFallback_hosts (output : String) (s : Stats) :
    (statusFallback output s).hosts_up = s.hosts_up := by
  unfold statusFallback; split_ifs <;> rfl

theorem finalizeStats_services (output : String) (s : Stats) :
    (finalizeStats output s).services = s.services := by
  rw [finalizeStats, statusFallback_services, impliedHostFallback_services]

theorem finalizeStats_vulns (output : String) (s : Stats) :
    (finalizeStats output s).vulnerabilities = s.vulnerabilities := by
  rw [finalizeStats, statusFallback_vulns, impliedHostFallback_vulns]

theorem finalizeStats_hosts (output : String) (s : Stats) :
    (finalizeStats output s).hosts_up = 1 ∨
      (finalizeStats output s).hosts_up = s.hosts_up := by
  rw [finalizeStats, statusFallback_hosts]
  exact impliedHostFallback_hosts s

/-! ## Composite host-status lemmas -/

theorem processLineAt_host_fields (lines : List String) (idx : Nat)
    (st : LoopState) (line : String) :
    (processLineAt lines idx st line).stats.hosts_up =
        (hostStatusStep st line).stats.hosts_up ∧
      (processLineAt lines idx st line).stats.scan_status =
        (hostStatusStep st line).stats.scan_status := by
  unfold processLineAt
  split_ifs
  · exact ⟨rfl, rfl⟩
  · constructor
    · rw [vulnStep_hosts, sectionEndStep_stats,
        (portLineStepAt_stats_eq lines idx (hostStatusStep st line) line).1]
    · rw [vulnStep_status, sectionEndStep_stats,
        (portLineStepAt_stats_eq lines idx (hostStatusStep st line) line).2.2.1]

theorem hostStatusStep_report (st : LoopState) (line : String)
    (h : strContains (pyLower line) "nmap scan report for" = true) :
    (hostStatusStep st line).stats.hosts_up = 1 ∧
      (hostStatusStep st line).stats.scan_status = "host_found" := by
  simp [hostStatusStep, h]

theorem hostStatusStep_up_host (st : LoopState) (line : String)
    (hn : strContains (pyLower line) "nmap scan report for" = false)
    (hu : strContains (pyLower line) "up" = true)
    (hh : strContains (pyLower line) "host" = true) :
    (hostStatusStep st line).stats.hosts_up = 1 ∧
      (hostStatusStep st line).stats.scan_status = "host_up" := by
  simp [hostStatusStep, hn, hu, hh]

/-! ## Claim C8 -/

/-- C8: for the empty input text, `_parse_statistics` returns scan status
`"no_output"`, `hosts_up = 0`, and empty `open_ports`, `services` and
`vulnerabilities` lists. -/
theorem c8_empty_output_no_output :
    parse_statistics "" =
      { hosts_up := 0, open_ports := [], services := [],
        scan_status := "no_output", vulnerabilities := [] } := by
  decide

/-! ## Claim C6 -/

/-- C6: for the input made of the line `"Nmap scan report for 10.0.0.5"`,
a port-table header line containing `PORT`, `STATE` and `SERVICE`, and the
line `"80/tcp open http"`, the extractor yields `hosts_up = 1`, exactly one
open-port record `{port 80, protocol tcp, state open, service http}`, and
scan status `"host_found"`. -/
theorem c6_report_header_port_line :
    parse_statistics "Nmap scan report for 10.0.0.5\nPORT STATE SERVICE\n80/tcp open http" =
      { hosts_up := 1,
        open_ports := [{ port := "80", protocol := "tcp", state := "open",
                         service := "http", version := none }],
        services := [], scan_status := "host_found", vulnerabilities := [] } := by
  decide

/-! ## Claim C9 -/

/-- C9: for every input text, the `services` list returned by
`_parse_statistics` is empty: it is initialized empty and no rule of the
extractor appends to it. -/
theorem c9_services_always_empty (output : String) :
    (parse_statistics output).services = [] := by
  unfold parse_statistics
  split_ifs
  · rfl
  · rw [finalizeStats_services, parseLoop_services]
    rfl

/-! ## Claim C10 -/

/-- C10: for every input text, the `hosts_up` value returned by
`_parse_statistics` is either 0 or 1, no matter how many distinct hosts the
input reports. -/
theorem c10_hosts_up_zero_or_one (output : String) :
    (parse_statistics output).hosts_up = 0 ∨
      (parse_statistics output).hosts_up = 1 := by
  unfold parse_statistics
  split_ifs
  · exact Or.inl rfl
  · rcases finalizeStats_hosts output
      (parseLoop (pyLines output) initLoopState (pyLines output)).stats with h | h
    · exact Or.inr h
    · rw [h]
      exact parseLoop_hosts (pyLines output) (pyLines output) initLoopState
        (Or.inl rfl)

/-! ## Claim C1 -/

/-- C1 counterexample: the input consisting exactly of the line
`"0 hosts up"` (no host/port indicators besides that substring) yields
`hosts_up = 1` and scan status `"host_up"`, not `hosts_up = 0` and
`"host_down"` as the claim states: the line also contains `"up"` and
`"host"`, so the higher-priority host-up rule fires first. -/
theorem c1_cex_zero_hosts_up_line :
    parse_statistics "0 hosts up" =
      { hosts_up := 1, open_ports := [], services := [],
        scan_status := "host_up", vulnerabilities := [] } := by
  decide

/-- C1 (amended): a line containing `"0 hosts up"` (case-insensitive)
always also contains `"up"` and `"host"`, hence always satisfies the
rule-2 host-up condition; so processing such a line (when it does not
contain `"nmap scan report for"`) sets `hosts_up = 1` and scan status
`"host_up"`, and the `"0 hosts up"` disjunct of the host-down rule is
unreachable. -/
theorem c1_zero_hosts_up_triggers_host_up (lines : List String)
    (st : LoopState) (line : String)
    (h0 : strContains (pyLower line) "0 hosts up" = true)
    (hn : strContains (pyLower line) "nmap scan report for" = false) :
    (processLine lines st line).stats.hosts_up = 1 ∧
      (processLine lines st line).stats.scan_status = "host_up" := by
  have hu : strContains (pyLower line) "up" = true :=
    strContains_trans h0 (by decide)
  have hh : strContains (pyLower line) "host" = true :=
    strContains_trans h0 (by decide)
  have hfields := processLineAt_host_fields lines (pyIndexOf lines line) st line
  have hhost := hostStatusStep_up_host st line hn hu hh
  exact ⟨hfields.1.trans hhost.1, hfields.2.trans hhost.2⟩

/-- C1 witness: the amended theorem applied to the concrete line
`"0 hosts up"`. -/
theorem c1_zero_hosts_up_triggers_host_up_witness :
    (processLine ["0 hosts up"] initLoopState "0 hosts up").stats.hosts_up = 1 ∧
      (processLine ["0 hosts up"] initLoopState "0 hosts up").stats.scan_status =
        "host_up" :=
  c1_zero_hosts_up_triggers_host_up ["0 hosts up"] initLoopState "0 hosts up"
    (by decide) (by decide)

/-! ## Claim C3 -/

/-- C3 counterexample: the line `"Scan report for 10.0.0.5"` contains
`"scan report for"` (case-insensitive) but the code only matches the longer
phrase `"nmap scan report for"`, so `_parse_statistics` leaves
`hosts_up = 0` and ends with status `"completed"` (via the whole-output
fallback), never setting `"host_found"`. -/
theorem c3_cex_scan_report_without_nmap :
    parse_statistics "Scan report for 10.0.0.5" =
      { hosts_up := 0, open_ports := [], services := [],
        scan_status := "completed", vulnerabilities := [] } := by
  decide

/-- C3 (amended): any line containing the phrase `"nmap scan report for"`
(case-insensitive) causes the per-line step of `_parse_statistics` to set
`hosts_up` to 1 and scan status to `"host_found"`. -/
theorem c3_nmap_scan_report_sets_host_found (lines : List String)
    (st : LoopState) (line : String)
    (h : strContains (pyLower line) "nmap scan report for" = true) :
    (processLine lines st line).stats.hosts_up = 1 ∧
      (processLine lines st line).stats.scan_status = "host_found" := by
  have hfields := processLineAt_host_fields lines (pyIndexOf lines line) st line
  have hhost := hostStatusStep_report st line h
  exact ⟨hfields.1.trans hhost.1, hfields.2.trans hhost.2⟩

/-- C3 witness: the amended theorem applied to the concrete line
`"Nmap scan report for 10.0.0.5"`. -/
theorem c3_nmap_scan_report_sets_host_found_witness :
    (processLine ["Nmap scan report for 10.0.0.5"] initLoopState
        "Nmap scan report for 10.0.0.5").stats.hosts_up = 1 ∧
      (processLine ["Nmap scan report for 10.0.0.5"] initLoopState
        "Nmap scan report for 10.0.0.5").stats.scan_status = "host_found" :=
  c3_nmap_scan_report_sets_host_found ["Nmap scan report for 10.0.0.5"]
    initLoopState "Nmap scan report for 10.0.0.5" (by decide)

/-! ## Claim C2 -/

theorem processLineAt_adds_vuln (lines : List String) (idx : Nat)
    (st : LoopState) (line : String)
    (hne : pyStrip line ≠ "")
    (hkw : hasVulnKeyword line = true)
    (hhd : isPortTableHeader line = false) :
    pyStrip line ∈ (processLineAt lines idx st line).stats.vulnerabilities := by
  have hbne : (pyStrip line != "") = true := by
    rw [bne_iff_ne]
    exact hne
  unfold processLineAt
  rw [hhd]
  simp only [Bool.false_eq_true, if_false]
  unfold vulnStep
  rw [hkw, hbne]
  simp only [if_true]
  exact List.mem_append_right _ (List.mem_singleton.mpr rfl)

theorem parseLoop_captures_vuln (lines : List String) :
    ∀ (rest : List String) (st : LoopState) (line : String),
      line ∈ rest →
      pyStrip line ≠ "" →
      hasVulnKeyword line = true →
      isPortTableHeader line = false →
      pyStrip line ∈ (parseLoop lines st rest).stats.vulnerabilities := by
  intro rest
  induction rest with
  | nil => intro st line hmem; exact absurd hmem (List.not_mem_nil line)
  | cons l rest ih =>
    intro st line hmem hne hkw hhd
    rcases List.mem_cons.mp hmem with heq | hmem'
    · subst heq
      exact parseLoop_vulns_mem lines rest _
        (processLineAt_adds_vuln lines (pyIndexOf lines line) st line hne hkw hhd)
    · exact ih _ line hmem' hne hkw hhd

/-- C2 counterexample: in the input
`"port state service vuln\n  cve-x  "` the first line is non-empty and
contains the keyword `"vuln"`, and the second contains `"cve-"`; yet the
resulting vulnerabilities list is exactly `["cve-x"]` — the header line is
skipped entirely by the port-table `continue`, and the second line is
stored stripped, not verbatim. -/
theorem c2_cex_header_and_strip :
    (parse_statistics "port state service vuln\n  cve-x  ").vulnerabilities =
        ["cve-x"] ∧
      "port state service vuln" ∉
        (parse_statistics "port state service vuln\n  cve-x  ").vulnerabilities ∧
      "  cve-x  " ∉
        (parse_statistics "port state service vuln\n  cve-x  ").vulnerabilities := by
  decide

/-- C2 (amended): every line of the input whose stripped form is non-empty,
which contains one of the substrings `"vuln"`, `"cve-"`, `"vulnerability"`,
`"risk"`, `"exploit"` (case-insensitive), and which is not a port-table
header line (does not contain all three of `"port"`, `"state"`,
`"service"` case-insensitively — such lines are skipped by the loop
`continue`), has its stripped form appended to the vulnerabilities list
returned by `_parse_statistics`, whether inside or outside the port-table
section. -/
theorem c2_vuln_keyword_lines_captured (output line : String)
    (hmem : line ∈ pyLines output)
    (hne : pyStrip line ≠ "")
    (hkw : hasVulnKeyword line = true)
    (hhd : isPortTableHeader line = false) :
    pyStrip line ∈ (parse_statistics output).vulnerabilities := by
  unfold parse_statistics
  split_ifs with h
  · exfalso
    have hout : output = "" := by rwa [beq_iff_eq] at h
    subst hout
    have hl : pyLines "" = [""] := rfl
    rw [hl] at hmem
    have : line = "" := List.mem_singleton.mp hmem
    subst this
    exact hne rfl
  · rw [finalizeStats_vulns]
    exact parseLoop_captures_vuln (pyLines output) (pyLines output)
      initLoopState line hmem hne hkw hhd

/-- C2 witness: the amended theorem applied to the one-line input
`"CVE-2024-1234 detected"`. -/
theorem c2_vuln_keyword_lines_captured_witness :
    pyStrip "CVE-2024-1234 detected" ∈
      (parse_statistics "CVE-2024-1234 detected").vulnerabilities :=
  c2_vuln_keyword_lines_captured "CVE-2024-1234 detected"
    "CVE-2024-1234 detected" (by decide) (by decide) (by decide) (by decide)

/-! ## Claim C5 -/

/-- Modelled from the claim: the variant of the line loop in which the
lookahead for an accepted port line starts at the position of THAT
occurrence of the line (the loop carries the current index), instead of
`lines.index(line)`, which is the position of the first occurrence of the
same text. -/
def specLoop (lines : List String) : Nat → LoopState → List String → LoopState
  | _, st, [] => st
  | i, st, l :: rest => specLoop lines (i + 1) (processLineAt lines i st l) rest

/-- Modelled from the claim: `_parse_statistics` with the lookahead taken
from the current occurrence of each port line. -/
def specParse (output : String) : Stats :=
  if output == "" then { initStats with scan_status := "no_output" }
  else finalizeStats output (specLoop (pyLines output) 0 initLoopState (pyLines output)).stats

theorem parseLoop_eq_specLoop (lines : List String) (hnd : lines.Nodup) :
    ∀ (rest : List String) (i : Nat) (st : LoopState),
      lines.drop i = rest →
      parseLoop lines st rest = specLoop lines i st rest := by
  intro rest
  induction rest with
  | nil => intro i st _; rfl
  | cons l rest ih =>
    intro i st h
    have hi : i < lines.length := by
      by_contra hle
      push_neg at hle
      rw [List.drop_eq_nil_of_le hle] at h
      exact List.noConfusion h
    have hdrop := List.drop_eq_getElem_cons (l := lines) (n := i) hi
    rw [h] at hdrop
    obtain ⟨hl, hrest⟩ := List.cons.inj hdrop
    have hidx : pyIndexOf lines l = i := by
      rw [hl]
      exact pyIndexOf_getElem lines hnd i hi
    show parseLoop lines (processLine lines st l) rest =
      specLoop lines (i + 1) (processLineAt lines i st l) rest
    rw [processLine, hidx]
    exact ih (i + 1) _ hrest.symm

/-- C5 counterexample: in an input where the text `"80/tcp open"` occurs
twice (each following a port-table header), the second accepted port line
scans the lines following the FIRST occurrence — `lines.index(line)` — so
its service is filled with `"Apache httpd"` again instead of the `"nginx"`
line that immediately follows it, as the claim would require (the
current-occurrence variant `specParse` yields `"nginx"`). -/
theorem c5_cex_duplicate_port_line :
    (parse_statistics "PORT STATE SERVICE\n80/tcp open\nApache httpd\n\nPORT STATE SERVICE\n80/tcp open\nnginx").open_ports.map
        (fun p => p.service) = ["Apache httpd", "Apache httpd"] ∧
      (specParse "PORT STATE SERVICE\n80/tcp open\nApache httpd\n\nPORT STATE SERVICE\n80/tcp open\nnginx").open_ports.map
        (fun p => p.service) = ["Apache httpd", "nginx"] := by
  decide

/-- C5 (amended): the up-to-3 lines scanned for extra service/version
information are the lines immediately following the FIRST occurrence in
the input of a line textually equal to the accepted port line; when no two
lines of the input are equal this coincides with the lines immediately
following that occurrence, i.e. `_parse_statistics` agrees with the
current-occurrence variant `specParse` on every input whose lines are
pairwise distinct. -/
theorem c5_lookahead_from_first_occurrence (output : String)
    (hnd : (pyLines output).Nodup) :
    parse_statistics output = specParse output := by
  unfold parse_statistics specParse
  split_ifs
  · rfl
  · rw [parseLoop_eq_specLoop (pyLines output) hnd (pyLines output) 0
      initLoopState rfl]

/-- C5 witness: the amended theorem applied to a concrete input with
pairwise-distinct lines. -/
theorem c5_lookahead_from_first_occurrence_witness :
    (pyLines "PORT STATE SERVICE\n80/tcp open http\nApache httpd").Nodup ∧
      parse_statistics "PORT STATE SERVICE\n80/tcp open http\nApache httpd" =
        specParse "PORT STATE SERVICE\n80/tcp open http\nApache httpd" :=
  ⟨by decide,
    c5_lookahead_from_first_occurrence
      "PORT STATE SERVICE\n80/tcp open http\nApache httpd" (by decide)⟩

/-! ## The scan wrapper (`scan`, `portfolio_scanner.py:77`-`156`) -/

/-- One entry of `SCAN_PROFILES` (`portfolio_scanner.py:20`-`46`). -/
structure ScanProfile where
  command : String
  description : String
  time : String
deriving Repr, DecidableEq

/-- The fixed profile table `SCAN_PROFILES`. -/
def SCAN_PROFILES : List (String × ScanProfile) :=
  [("discovery", { command := "-sn", description := "Host discovery only",
                   time := "Fast" }),
   ("quick", { command := "-sS -T4 -F", description := "Quick TCP port scan",
               time := "Medium" }),
   ("comprehensive", { command := "-sS -sV -sC -O -A",
                       description := "Comprehensive scan with OS/version detection",
                       time := "Slow" }),
   ("vulnerability", { command := "-sV --script vuln,safe",
                       description := "Vulnerability assessment",
                       time := "Very Slow" }),
   ("udp", { command := "-sU --top-ports 100",
             description := "Top UDP ports scan", time := "Medium" })]

/-- A JSON-like value, modelling the Python dicts `scan` builds: objects
carry their key/value pairs in insertion order, and a key is present only
when the source dict literal writes it. -/
inductive JVal where
  | jstr (s : String)
  | jnat (n : Nat)
  | jint (i : Int)
  | jbool (b : Bool)
  | jarr (xs : List JVal)
  | jobj (fields : List (String × JVal))

/-- Whether a JSON object has a key. -/
def JVal.hasKey : JVal → String → Bool
  | .jobj fs, k => fs.any (fun f => f.1 == k)
  | _, _ => false

/-- Look up a key in a JSON object. -/
def JVal.getKey : JVal → String → Option JVal
  | .jobj fs, k => (fs.find? (fun f => f.1 == k)).map (fun f => f.2)
  | _, _ => none

/-- The `port_info` dict rendered as JSON: the `version` key exists only
when the lookahead set it. -/
def portInfoToJVal (p : PortInfo) : JVal :=
  .jobj ([("port", .jstr p.port), ("protocol", .jstr p.protocol),
          ("state", .jstr p.state), ("service", .jstr p.service)] ++
    (match p.version with
     | some v => [("version", .jstr v)]
     | none => []))

/-- The `stats` dict rendered as JSON: always exactly the five keys of the
initializer at `portfolio_scanner.py:160`. -/
def statsToJVal (s : Stats) : JVal :=
  .jobj [("hosts_up", .jnat s.hosts_up),
         ("open_ports", .jarr (s.open_ports.map portInfoToJVal)),
         ("services", .jarr (s.services.map .jstr)),
         ("scan_status", .jstr s.scan_status),
         ("vulnerabilities", .jarr (s.vulnerabilities.map .jstr))]

/-- How the subprocess call inside `scan` can end: normal completion with
an exit code and captured stdout/stderr, `subprocess.TimeoutExpired`, or
any other exception. -/
inductive ScanOutcome where
  | completed (returncode : Int) (stdout stderr : String)
  | timedOut
  | otherError

/-- The error `scan` raises before running anything: `ValueError` with the
list of valid profile names interpolated into the message
(`portfolio_scanner.py:81`). -/
inductive ScanError where
  | invalidProfile (validProfiles : List String)
deriving Repr, DecidableEq

/-- `scan` (`portfolio_scanner.py:77`-`156`), with the effectful parts
shallowly embedded: the wall-clock timestamp is a parameter and the
subprocess result is the `outcome` parameter. The profile check happens
before the outcome is even examined — the model of "raised synchronously
before any process is spawned". On normal completion the result dict has
`metadata`, `raw_output`, `raw_errors` and `statistics`; on timeout the
partial dict at `portfolio_scanner.py:137`-`151` has only `metadata` and a
three-key `statistics`; on any other exception the empty dict is
returned. -/
def scan (target profile timestamp : String) (outcome : ScanOutcome) :
    Except ScanError JVal :=
  match SCAN_PROFILES.lookup profile with
  | none => .error (.invalidProfile (SCAN_PROFILES.map Prod.fst))
  | some info =>
    .ok
      (match outcome with
       | .completed rc out err =>
         .jobj [("metadata", .jobj
                  [("target", .jstr target), ("profile", .jstr profile),
                   ("timestamp", .jstr timestamp),
                   ("command", .jstr ("nmap " ++ info.command ++ " " ++ target)),
                   ("success", .jbool (rc == 0)), ("return_code", .jint rc)]),
                ("raw_output", .jstr out), ("raw_errors", .jstr err),
                ("statistics", statsToJVal (parse_statistics out))]
       | .timedOut =>
         .jobj [("metadata", .jobj
                  [("target", .jstr target), ("profile", .jstr profile),
                   ("timestamp", .jstr timestamp),
                   ("command", .jstr ("nmap " ++ info.command ++ " " ++ target)),
                   ("success", .jbool false), ("error", .jstr "Timeout")]),
                ("statistics", .jobj
                  [("hosts_up", .jnat 0), ("open_ports", .jarr []),
                   ("scan_status", .jstr "timeout")])]
       | .otherError => .jobj [])

/-- Whether a `scan` call returned a result rather than raising. -/
def exceptIsOk : Except ScanError JVal → Bool
  | .ok _ => true
  | .error _ => false

/-- Whether the result of a `scan` call has a top-level key. -/
def exceptHasKey : Except ScanError JVal → String → Bool
  | .ok v, k => v.hasKey k
  | .error _, _ => false

/-- Whether the `statistics` object of a `scan` result has a key. -/
def exceptStatsHasKey (r : Except ScanError JVal) (k : String) : Bool :=
  match r with
  | .ok v =>
    match v.getKey "statistics" with
    | some s => s.hasKey k
    | none => false
  | .error _ => false

/-! ## Claim C4 -/

/-- C4 counterexample: the partial result `scan` builds on subprocess
timeout has no `raw_output` or `raw_errors` key, and its `statistics`
object lacks the `services` and `vulnerabilities` fields (it keeps
`hosts_up`), contradicting the claim that every scan result, including the
timeout partial result, carries all of them. -/
theorem c4_cex_timeout_partial_result :
    exceptHasKey (scan "10.0.0.1" "quick" "ts" ScanOutcome.timedOut)
        "raw_output" = false ∧
      exceptHasKey (scan "10.0.0.1" "quick" "ts" ScanOutcome.timedOut)
        "raw_errors" = false ∧
      exceptStatsHasKey (scan "10.0.0.1" "quick" "ts" ScanOutcome.timedOut)
        "services" = false ∧
      exceptStatsHasKey (scan "10.0.0.1" "quick" "ts" ScanOutcome.timedOut)
        "vulnerabilities" = false ∧
      exceptStatsHasKey (scan "10.0.0.1" "quick" "ts" ScanOutcome.timedOut)
        "hosts_up" = true := by
  decide

/-- C4 (amended): for every valid profile, a scan result produced on the
normal completion path contains `raw_output`, `raw_errors` and a
`statistics` object with all five fields `hosts_up`, `open_ports`,
`services`, `scan_status`, `vulnerabilities`; the partial result produced
on subprocess timeout instead carries only `metadata` and a `statistics`
object with `hosts_up`, `open_ports` and `scan_status` — it has no
`raw_output`, no `raw_errors`, and no `services` or `vulnerabilities`
statistics fields. -/
theorem c4_result_fields (target profile timestamp : String)
    (info : ScanProfile) (h : SCAN_PROFILES.lookup profile = some info)
    (rc : Int) (out err : String) :
    (exceptHasKey (scan target profile timestamp (ScanOutcome.completed rc out err))
          "raw_output" = true ∧
        exceptHasKey (scan target profile timestamp (ScanOutcome.completed rc out err))
          "raw_errors" = true ∧
        exceptStatsHasKey (scan target profile timestamp (ScanOutcome.completed rc out err))
          "hosts_up" = true ∧
        exceptStatsHasKey (scan target profile timestamp (ScanOutcome.completed rc out err))
          "open_ports" = true ∧
        exceptStatsHasKey (scan target profile timestamp (ScanOutcome.completed rc out err))
          "services" = true ∧
        exceptStatsHasKey (scan target profile timestamp (ScanOutcome.completed rc out err))
          "scan_status" = true ∧
        exceptStatsHasKey (scan target profile timestamp (ScanOutcome.completed rc out err))
          "vulnerabilities" = true) ∧
      (exceptHasKey (scan target profile timestamp ScanOutcome.timedOut)
          "raw_output" = false ∧
        exceptHasKey (scan target profile timestamp ScanOutcome.timedOut)
          "raw_errors" = false ∧
        exceptStatsHasKey (scan target profile timestamp ScanOutcome.timedOut)
          "hosts_up" = true ∧
        exceptStatsHasKey (scan target profile timestamp ScanOutcome.timedOut)
          "open_ports" = true ∧
        exceptStatsHasKey (scan target profile timestamp ScanOutcome.timedOut)
          "scan_status" = true ∧
        exceptStatsHasKey (scan target profile timestamp ScanOutcome.timedOut)
          "services" = false ∧
        exceptStatsHasKey (scan target profile timestamp ScanOutcome.timedOut)
          "vulnerabilities" = false) := by
  unfold scan
  rw [h]
  exact ⟨⟨rfl, rfl, rfl, rfl, rfl, rfl, rfl⟩, ⟨rfl, rfl, rfl, rfl, rfl, rfl, rfl⟩⟩

/-- C4 witness: the amended theorem applied to the `"quick"` profile with a
completed subprocess. -/
theorem c4_result_fields_witness :
    exceptHasKey (scan "10.0.0.1" "quick" "ts" (ScanOutcome.completed 0 "" ""))
      "raw_output" = true :=
  (c4_result_fields "10.0.0.1" "quick" "ts"
    { command := "-sS -T4 -F", description := "Quick TCP port scan",
      time := "Medium" } rfl 0 "" "").1.1

/-! ## Claim C7 -/

/-- C7: for every profile name not in the profile table, `scan` raises the
invalid-profile error synchronously — in the model, the error is returned
for EVERY subprocess outcome, i.e. without consulting the subprocess at
all — and for every profile name in the table it does not raise that
error. -/
theorem c7_invalid_profile_rejected (target profile timestamp : String)
    (outcome : ScanOutcome) :
    (SCAN_PROFILES.lookup profile = none →
       scan target profile timestamp outcome =
         .error (.invalidProfile (SCAN_PROFILES.map Prod.fst))) ∧
      (SCAN_PROFILES.lookup profile ≠ none →
       exceptIsOk (scan target profile timestamp outcome) = true) := by
  constructor
  · intro h
    unfold scan
    rw [h]
  · intro h
    obtain ⟨info, hinfo⟩ := Option.ne_none_iff_exists'.mp h
    unfold scan
    rw [hinfo]
    rfl

/-- C7 witness: the theorem applied to the absent profile name `"bogus"`
and to the present profile name `"quick"`, under an arbitrary outcome. -/
theorem c7_invalid_profile_rejected_witness :
    scan "192.168.1.1" "bogus" "ts" ScanOutcome.timedOut =
        .error (.invalidProfile (SCAN_PROFILES.map Prod.fst)) ∧
      exceptIsOk (scan "192.168.1.1" "quick" "ts" ScanOutcome.timedOut) = true :=
  ⟨(c7_invalid_profile_rejected "192.168.1.1" "bogus" "ts"
      ScanOutcome.timedOut).1 rfl,
    (c7_invalid_profile_rejected "192.168.1.1" "quick" "ts"
      ScanOutcome.timedOut).2 (by decide)⟩
